import Mathlib

/-!
Shallow embedding of the Slack receipt-OCR bot (`src/index.ts`) and proofs
about its event classification, retry, language-model fallback, delivery
fallback and truncation behaviour.

External effects (Slack `chat.postMessage`, file download, Tencent OCR,
the LLM HTTP endpoint, `sleep`) are determinized as oracles: each network
call's outcome is a value supplied by an environment, and every function
additionally returns the trace of calls it made (posts attempted, sleeps
requested, attempts used), so that control-flow claims can be stated as
equations on traces.
-/

set_option autoImplicit false

namespace SlackApp

/- ------------------------------------------------------------------ -/
/- JavaScript string-semantics helpers                                 -/
/- ------------------------------------------------------------------ -/

/-- Does the character list `s` start with `pat`? (JS `String.prototype.startsWith`.) -/
def startsWithList : List Char → List Char → Bool
  | [], _ => true
  | _ :: _, [] => false
  | p :: ps, c :: cs => p == c && startsWithList ps cs

/-- Does `s` contain `pat` as a contiguous substring? (JS `String.prototype.includes`.) -/
def containsList : List Char → List Char → Bool
  | [], pat => pat.isEmpty
  | s@(_ :: rest), pat => startsWithList pat s || containsList rest pat

/-- JS `s.includes(pat)` on Lean strings. -/
def includesSubstr (s pat : String) : Bool :=
  containsList s.data pat.data

/-- JS `s.startsWith(pat)` on Lean strings. -/
def strStartsWith (s pat : String) : Bool :=
  startsWithList pat.data s.data

/-- Remove whitespace from both ends of a character list (JS `trim`). -/
def trimList (cs : List Char) : List Char :=
  ((cs.dropWhile Char.isWhitespace).reverse.dropWhile Char.isWhitespace).reverse

/-- JS `s.trim()` on Lean strings. -/
def strTrim (s : String) : String :=
  ⟨trimList s.data⟩

/-- JS `s.slice(0, n)` on Lean strings (character based). -/
def strTake (s : String) (n : Nat) : String :=
  ⟨s.data.take n⟩

/-- Truthiness of an optional JS string: defined and non-empty. -/
def optTruthy : Option String → Bool
  | some s => s != ""
  | none => false

/- ------------------------------------------------------------------ -/
/- `isRetryableNetworkError` (src/index.ts lines 94-103)               -/
/- ------------------------------------------------------------------ -/

/-- Embeds `isRetryableNetworkError`: the message of the error contains one
of the five transient-network signatures. -/
def isRetryableNetworkError (msg : String) : Bool :=
  includesSubstr msg "EAI_AGAIN" ||
  includesSubstr msg "ENOTFOUND" ||
  includesSubstr msg "ETIMEDOUT" ||
  includesSubstr msg "ECONNRESET" ||
  includesSubstr msg "socket hang up"

/- ------------------------------------------------------------------ -/
/- Tencent OCR call with retry (src/index.ts lines 131-171)            -/
/- ------------------------------------------------------------------ -/

/-- One entry of the provider's `TextDetections` list; `DetectedText` is optional. -/
structure OcrDetection where
  DetectedText : Option String
deriving Repr, DecidableEq

/-- The OCR provider's response shape; the detection list itself may be absent. -/
structure OcrResponse where
  TextDetections : Option (List OcrDetection)
deriving Repr, DecidableEq

/-- Embeds the success path of `callTencentOCRWithSDK`:
`(result.TextDetections || []).map(x => x.DetectedText).filter(x => x && x.trim().length > 0).join("\n")`. -/
def ocrJoin (resp : OcrResponse) : String :=
  String.intercalate "\n"
    (((resp.TextDetections.getD []).map (fun d => d.DetectedText)).filterMap
      (fun x =>
        match x with
        | some s => if s != "" && (strTrim s).length > 0 then some s else none
        | none => none))

/-- Outcome of one `ocrClient.GeneralAccurateOCR` call, supplied by the environment. -/
inductive OcrAttemptOutcome where
  | success (resp : OcrResponse)
  | failure (msg : String)
deriving Repr

/-- Trace of one run of `callTencentOCRWithSDK`: final result (`.error` means
the function threw), how many attempts were made, and the backoff sleeps
requested between attempts, in order. -/
structure OcrRun where
  result : Except String String
  attemptsMade : Nat
  sleeps : List Nat
deriving Repr

/-- Embeds `maxAttempts` of `callTencentOCRWithSDK`. -/
def maxAttempts : Nat := 4

/-- The `for (let attempt = 1; attempt <= maxAttempts; attempt++)` loop of
`callTencentOCRWithSDK`, with the per-attempt outcome given by `f`.  The
`fuel` argument counts the loop iterations still permitted; the `fuel = 0`
case corresponds to the (unreachable) `return ""` after the loop. -/
def ocrGo (f : Nat → OcrAttemptOutcome) (attempt : Nat) : Nat → OcrRun
  | 0 => ⟨.ok "", 0, []⟩
  | fuel + 1 =>
    match f attempt with
    | .success resp => ⟨.ok (ocrJoin resp), 1, []⟩
    | .failure m =>
      if attempt < maxAttempts && isRetryableNetworkError m then
        let backoff := 300 * 2 ^ (attempt - 1)
        let rest := ocrGo f (attempt + 1) fuel
        ⟨rest.result, rest.attemptsMade + 1, backoff :: rest.sleeps⟩
      else
        ⟨.error ("OCR Failed: " ++ m), 1, []⟩

/-- Embeds `callTencentOCRWithSDK` (the attempt loop; the image payload is
irrelevant to control flow and is absorbed into the oracle `f`). -/
def callTencentOCRWithSDK (f : Nat → OcrAttemptOutcome) : OcrRun :=
  ocrGo f 1 maxAttempts

/- ------------------------------------------------------------------ -/
/- Attachment download (src/index.ts lines 105-129)                    -/
/- ------------------------------------------------------------------ -/

/-- Outcome of the `fetch(fileUrl, ...)` call inside `fetchSlackFileAsBase64`:
either the fetch (or body read) threw, or a response arrived with `res.ok`,
`res.status` and a body whose base64 encoding is `base64`. -/
inductive DownloadOutcome where
  | throws (msg : String)
  | response (ok : Bool) (status : Nat) (base64 : String)
deriving Repr

/-- Embeds `fetchSlackFileAsBase64`: a non-ok response throws
`Failed to download file: <status>`; success returns the base64 body. -/
def fetchSlackFileAsBase64 (fileUrl : String) (o : DownloadOutcome) : Except String String :=
  match fileUrl, o with
  | _, .throws m => .error m
  | _, .response ok status b64 =>
    if ok then .ok b64 else .error ("Failed to download file: " ++ toString status)

/- ------------------------------------------------------------------ -/
/- LLM client (src/index.ts lines 175-317)                             -/
/- ------------------------------------------------------------------ -/

/-- Token-usage counters (`data.usage`). -/
structure LlmUsage where
  prompt_tokens : Nat
  completion_tokens : Nat
deriving Repr, DecidableEq

/-- Provider error object (`data.error`); its `message` field is optional. -/
structure LlmError where
  message : Option String
deriving Repr, DecidableEq

/-- The decoded JSON payload of the LLM endpoint, restricted to the fields the
code reads: `error`, `choices?.[0]?.message?.content` and `usage`.  A failed
`res.json()` (`.catch(() => ({}))`) is the value with all fields absent. -/
structure LlmData where
  error : Option LlmError
  content : Option String
  usage : Option LlmUsage
deriving Repr, DecidableEq

/-- Outcome of the `fetch(env.LLM_API_URL, ...)` call: a transport exception,
or a response with `res.ok`, `res.status` and decoded payload. -/
inductive LlmHttpOutcome where
  | throws (msg : String)
  | response (ok : Bool) (status : Nat) (data : LlmData)
deriving Repr

/-- Embeds the thrown message `data?.error?.message || "LLM API error (status <res.status>)"`. -/
def llmErrorMessage (data : LlmData) (status : Nat) : String :=
  match data.error with
  | some e =>
    match e.message with
    | some m => if m != "" then m else "LLM API error (status " ++ toString status ++ ")"
    | none => "LLM API error (status " ++ toString status ++ ")"
  | none => "LLM API error (status " ++ toString status ++ ")"

/-- JS `content || dflt` where `content` is possibly-undefined string. -/
def contentOr (c : Option String) (dflt : String) : String :=
  match c with
  | some s => if s != "" then s else dflt
  | none => dflt

/-- Result shape of `callLLMToAnalyze`, the pair of text and optional usage. -/
structure AnalysisResult where
  text : String
  usage : Option LlmUsage
deriving Repr, DecidableEq

/-- The `try` block of `callLLMToAnalyze`: `.error` is a thrown exception
(transport failure, non-ok status, or provider error payload). -/
def callLLMToAnalyzeTry (o : LlmHttpOutcome) : Except String AnalysisResult :=
  match o with
  | .throws m => .error m
  | .response ok status data =>
    if !ok || data.error.isSome then .error (llmErrorMessage data status)
    else .ok ⟨contentOr data.content "⚠️ AI could not analyze the text.", data.usage⟩

/-- Embeds `callLLMToAnalyze`: the catch block converts any exception of the
try block into the fallback result carrying the original OCR text. -/
def callLLMToAnalyze (ocrText : String) (o : LlmHttpOutcome) : AnalysisResult :=
  match callLLMToAnalyzeTry o with
  | .ok v => v
  | .error _ => ⟨"⚠️ AI Analysis Failed. Raw Text:\n" ++ ocrText, none⟩

/-- The `try` block of `callLLMToChat`. -/
def callLLMToChatTry (o : LlmHttpOutcome) : Except String String :=
  match o with
  | .throws m => .error m
  | .response ok status data =>
    if !ok || data.error.isSome then .error (llmErrorMessage data status)
    else .ok (contentOr data.content "⚠️ I could not generate a reply.")

/-- Embeds `callLLMToChat` (the `text` field of its result): any exception of
the try block becomes the fixed apology string. -/
def callLLMToChat (userText : String) (o : LlmHttpOutcome) : String :=
  match userText, callLLMToChatTry o with
  | _, .ok v => v
  | _, .error _ => "⚠️ AI reply failed. Please try again."

/- ------------------------------------------------------------------ -/
/- Truncation (src/index.ts lines 451-452, 482-483)                    -/
/- ------------------------------------------------------------------ -/

/-- Embeds the inline truncation:
`structuredResult.length > MAX ? structuredResult.slice(0, MAX) + "...(truncated)" : structuredResult`
with `MAX = 3500`. -/
def truncateMsg (s : String) : String :=
  if s.length > 3500 then strTake s 3500 ++ "...(truncated)" else s

/- ------------------------------------------------------------------ -/
/- Delivery with thread fallback (src/index.ts lines 321-345)          -/
/- ------------------------------------------------------------------ -/

/-- Arguments of one `client.chat.postMessage` call. -/
structure PostArgs where
  channel : String
  thread_ts : Option String
  text : String
deriving Repr, DecidableEq

/-- Outcome of one `client.chat.postMessage` call; on failure `slackErr` is
the value of `err?.data?.error || err?.message || String(err)`. -/
inductive PostResult where
  | posted
  | failed (slackErr : String)
deriving Repr

/-- Trace of one `postThreadOrChannel` invocation: its result (`.error` means
it threw), the next unused post-call index, and the `chat.postMessage` calls
it issued, in order. -/
structure PostTrace where
  result : Except String Unit
  next : Nat
  calls : List PostArgs
deriving Repr

/-- Embeds `postThreadOrChannel`.  `post` is the oracle giving the outcome of
the `n`-th `chat.postMessage` call of the handler run.  A failure whose slack
error is exactly `cannot_reply_to_message` on a truthy `thread_ts` triggers
one channel-level fallback post with the same text and no thread reference;
any other failure is re-thrown. -/
def postThreadOrChannel (post : Nat → PostResult) (n : Nat) (args : PostArgs) : PostTrace :=
  match post n with
  | .posted => ⟨.ok (), n + 1, [args]⟩
  | .failed slackErr =>
    if slackErr == "cannot_reply_to_message" && optTruthy args.thread_ts then
      let fb : PostArgs := ⟨args.channel, none, args.text⟩
      match post (n + 1) with
      | .posted => ⟨.ok (), n + 2, [args, fb]⟩
      | .failed e2 => ⟨.error e2, n + 2, [args, fb]⟩
    else
      ⟨.error slackErr, n + 1, [args]⟩

/- ------------------------------------------------------------------ -/
/- Mention stripping (src/index.ts line 470)                           -/
/- ------------------------------------------------------------------ -/

/-- Scan to the first `>`; `some rem` is the input after that `>`. -/
def consumeToGt : List Char → Option (List Char)
  | [] => none
  | c :: rest => if c == '>' then some rest else consumeToGt rest

/-- Match `[^>]+>` at the head of the input (what follows `<@` in the regex
`/<@[^>]+>/`): at least one non-`>` character, then a `>`. -/
def mentionEnd : List Char → Option (List Char)
  | [] => none
  | c :: rest => if c == '>' then none else consumeToGt rest

/-- One pass of `text.replace(/<@[^>]+>/g, "")`: at each position, if the
regex matches, drop the match and continue after it, else keep the character.
`fuel` bounds the scan; `fuel = cs.length` always suffices because every step
consumes at least one character. -/
def stripMentionsGo : Nat → List Char → List Char
  | 0, _ => []
  | _ + 1, [] => []
  | fuel + 1, '<' :: '@' :: rest2 =>
    match mentionEnd rest2 with
    | some rem => stripMentionsGo fuel rem
    | none => '<' :: stripMentionsGo fuel ('@' :: rest2)
  | fuel + 1, c :: rest => c :: stripMentionsGo fuel rest

/-- Embeds `e.text.replace(/<@[^>]+>/g, "")`. -/
def stripMentions (s : String) : String :=
  ⟨stripMentionsGo s.data.length s.data⟩

/-- Embeds `cleanedText` of the mention-chat branch:
`e.text.replace(/<@[^>]+>/g, "").trim()`. -/
def cleanedTextOf (t : String) : String :=
  strTrim (stripMentions t)

/- ------------------------------------------------------------------ -/
/- Message event model (src/index.ts lines 384-494)                    -/
/- ------------------------------------------------------------------ -/

/-- One entry of `e.files`. -/
structure SlackFile where
  id : String
  mimetype : Option String
  url_private_download : Option String
deriving Repr, DecidableEq

/-- The fields of the inbound `message` event the handler reads. -/
structure MessageEvent where
  channel : String
  user : Option String
  ts : String
  thread_ts : Option String
  text : Option String
  subtype : Option String
  bot_id : Option String
  files : Option (List SlackFile)
deriving Repr

/-- Environment determinizing every external call of one handler run. -/
structure HandlerEnv where
  post : Nat → PostResult
  download : DownloadOutcome
  ocrAttempt : Nat → OcrAttemptOutcome
  llmAnalyze : LlmHttpOutcome
  llmChat : LlmHttpOutcome

/-- Trace of one handler run.  `outcome = .error m` means the handler threw
an unhandled exception back to the platform; the remaining fields record the
downstream calls that were made. -/
structure HandlerResult where
  outcome : Except String Unit
  posts : List PostArgs
  downloadCalls : Nat
  ocrCalls : Nat
  analyzeCalls : Nat
  chatTexts : List String
  sleeps : List Nat
deriving Repr

/-- The result of an ignored / no-op event: nothing happens. -/
def emptyResult : HandlerResult :=
  ⟨.ok (), [], 0, 0, 0, [], []⟩

/-- Predicate of `files.find`: `typeof f?.mimetype === "string" && f.mimetype.startsWith("image/")`. -/
def isImageMimeFile (f : SlackFile) : Bool :=
  match f.mimetype with
  | some m => strStartsWith m "image/"
  | none => false

/-- Embeds `imageFile` of the handler: the first attachment with an image MIME type
(regardless of whether it has a download URL). -/
def firstImageFile (e : MessageEvent) : Option SlackFile :=
  (e.files.getD []).find? isImageMimeFile

/-- Embeds `threadTs = e.thread_ts ?? e.ts`. -/
def threadTarget (e : MessageEvent) : String :=
  e.thread_ts.getD e.ts

/-- The three ignore guards of the handler taken together. -/
def ignoredEvent (e : MessageEvent) : Bool :=
  optTruthy e.subtype || !optTruthy e.user || optTruthy e.bot_id

/-- Does the handler take the image branch: `imageFile?.url_private_download`
is truthy for the first image-MIME attachment. -/
def imageRoute (e : MessageEvent) : Bool :=
  match firstImageFile e with
  | some f => optTruthy f.url_private_download
  | none => false

/-- Does the handler take the mention branch:
`typeof e.text === "string" && e.text.includes("<@")`. -/
def mentionCond (e : MessageEvent) : Bool :=
  match e.text with
  | some t => includesSubstr t "<@"
  | none => false

/-- The error post of a catch block:
`"❌ Error: " + (err instanceof Error ? err.message : String(err))` sent via
`postThreadOrChannel`; if this post itself throws, the exception leaves the
handler. -/
def catchPost (env : HandlerEnv) (channel threadTs : String) (n : Nat) (errMsg : String) : PostTrace :=
  postThreadOrChannel env.post n ⟨channel, some threadTs, "❌ Error: " ++ errMsg⟩

/-- The image-OCR branch of the handler (src/index.ts lines 423-466).  The
acknowledgment post precedes the `try`, so its failure propagates; inside the
`try`, failures of download, OCR and the result posts are converted by the
catch block into one error post (whose own failure propagates). -/
def imagePipeline (env : HandlerEnv) (e : MessageEvent) (threadTs : String) (url : String) : HandlerResult :=
  let t1 := postThreadOrChannel env.post 0 ⟨e.channel, some threadTs, "🔍 Processing your image with OCR..."⟩
  match t1.result with
  | .error m => ⟨.error m, t1.calls, 0, 0, 0, [], []⟩
  | .ok _ =>
    match fetchSlackFileAsBase64 url env.download with
    | .error m =>
      let t2 := catchPost env e.channel threadTs t1.next m
      ⟨t2.result, t1.calls ++ t2.calls, 1, 0, 0, [], []⟩
    | .ok _b64 =>
      let run := callTencentOCRWithSDK env.ocrAttempt
      match run.result with
      | .error m =>
        let t2 := catchPost env e.channel threadTs t1.next m
        ⟨t2.result, t1.calls ++ t2.calls, 1, run.attemptsMade, 0, [], run.sleeps⟩
      | .ok ocrRawText =>
        if ocrRawText = "" then
          let t2 := postThreadOrChannel env.post t1.next ⟨e.channel, some threadTs, "❌ No text detected in the image."⟩
          match t2.result with
          | .ok _ => ⟨.ok (), t1.calls ++ t2.calls, 1, run.attemptsMade, 0, [], run.sleeps⟩
          | .error m2 =>
            let t3 := catchPost env e.channel threadTs t2.next m2
            ⟨t3.result, t1.calls ++ t2.calls ++ t3.calls, 1, run.attemptsMade, 0, [], run.sleeps⟩
        else
          let ar := callLLMToAnalyze ocrRawText env.llmAnalyze
          let finalMsg := truncateMsg ar.text
          let t2 := postThreadOrChannel env.post t1.next ⟨e.channel, some threadTs, finalMsg⟩
          match t2.result with
          | .ok _ => ⟨.ok (), t1.calls ++ t2.calls, 1, run.attemptsMade, 1, [], run.sleeps⟩
          | .error m2 =>
            let t3 := catchPost env e.channel threadTs t2.next m2
            ⟨t3.result, t1.calls ++ t2.calls ++ t3.calls, 1, run.attemptsMade, 1, [], run.sleeps⟩

/-- The mention-chat branch of the handler (src/index.ts lines 469-493).  The
"Hi!" and "Thinking..." posts precede the `try`, so their failures propagate;
inside the `try` the only throwing operation is the reply post, whose failure
the catch block converts into an error post. -/
def mentionBranch (env : HandlerEnv) (e : MessageEvent) (threadTs : String) : HandlerResult :=
  match e.text with
  | none => emptyResult
  | some t =>
    if includesSubstr t "<@" then
      let cleanedText := cleanedTextOf t
      if cleanedText = "" then
        let t1 := postThreadOrChannel env.post 0 ⟨e.channel, some threadTs, "Hi! Tell me what you need."⟩
        ⟨t1.result, t1.calls, 0, 0, 0, [], []⟩
      else
        let t1 := postThreadOrChannel env.post 0 ⟨e.channel, some threadTs, "🤖 Thinking..."⟩
        match t1.result with
        | .error m => ⟨.error m, t1.calls, 0, 0, 0, [], []⟩
        | .ok _ =>
          let reply := callLLMToChat cleanedText env.llmChat
          let finalMsg := truncateMsg reply
          let t2 := postThreadOrChannel env.post t1.next ⟨e.channel, some threadTs, finalMsg⟩
          match t2.result with
          | .ok _ => ⟨.ok (), t1.calls ++ t2.calls, 0, 0, 0, [cleanedText], []⟩
          | .error m2 =>
            let t3 := catchPost env e.channel threadTs t2.next m2
            ⟨t3.result, t1.calls ++ t2.calls ++ t3.calls, 0, 0, 0, [cleanedText], []⟩
    else emptyResult

/-- Embeds the `app.event("message")` handler (src/index.ts lines 384-494):
ignore guards, then image pipeline if the first image-MIME attachment has a
truthy download URL, else the mention-chat branch. -/
def handleMessage (env : HandlerEnv) (e : MessageEvent) : HandlerResult :=
  if optTruthy e.subtype then emptyResult
  else if !optTruthy e.user then emptyResult
  else if optTruthy e.bot_id then emptyResult
  else
    let threadTs := threadTarget e
    match firstImageFile e with
    | some f =>
      match f.url_private_download with
      | some u => if u != "" then imagePipeline env e threadTs u else mentionBranch env e threadTs
      | none => mentionBranch env e threadTs
    | none => mentionBranch env e threadTs

/- ------------------------------------------------------------------ -/
/- Spec-side definitions (transcribed from the specification's words,  -/
/- for refinement statements only)                                     -/
/- ------------------------------------------------------------------ -/

/-- Transcribed from the spec's words: a transient network failure is a
"connection refused/reset, DNS resolution failure, timeout, or socket hang
up style error", rendered as the corresponding Node error signatures. -/
def specTransientNetworkError (msg : String) : Bool :=
  includesSubstr msg "ECONNREFUSED" ||
  includesSubstr msg "ECONNRESET" ||
  includesSubstr msg "EAI_AGAIN" ||
  includesSubstr msg "ENOTFOUND" ||
  includesSubstr msg "ETIMEDOUT" ||
  includesSubstr msg "socket hang up"

/-- Transcribed from the spec's words: "extract the provider's list of
detections, discard empty/whitespace-only entries, and join remaining
entries with newlines in provider-returned order". -/
def specJoinDetections (resp : OcrResponse) : String :=
  String.intercalate "\n"
    (((resp.TextDetections.getD []).filterMap (fun d => d.DetectedText)).filter
      (fun s => strTrim s != ""))

/- ------------------------------------------------------------------ -/
/- Concrete fixtures for witnesses and counterexamples                 -/
/- ------------------------------------------------------------------ -/

/-- Event with an image attachment, used by the C1 counterexample. -/
def eventC1 : MessageEvent :=
  ⟨"C1", some "U1", "111", none, some "hi", none, none,
   some [⟨"F1", some "image/png", some "https://dl"⟩]⟩

/-- Environment where every `chat.postMessage` call fails with an error other
than `cannot_reply_to_message`. -/
def envC1 : HandlerEnv :=
  ⟨fun _ => .failed "channel_not_found", .throws "boom", fun _ => .failure "x",
   .throws "y", .throws "z"⟩

/-- Event with an image attachment, used by the C1 witness. -/
def eventC1W : MessageEvent :=
  ⟨"C1", some "U1", "111", none, none, none, none,
   some [⟨"F1", some "image/png", some "https://dl"⟩]⟩

/-- Environment with successful posts and a failing (403) attachment
download, used by the C1 witness. -/
def envC1W : HandlerEnv :=
  ⟨fun _ => .posted, .response false 403 "", fun _ => .failure "never called",
   .throws "never called", .throws "never called"⟩

/-- Event whose first image-MIME attachment has no download URL while a later
one has both an image MIME type and a URL; its text also carries a mention. -/
def eventC2 : MessageEvent :=
  ⟨"C2", some "U1", "111", none, some "<@U9> hi", none, none,
   some [⟨"F1", some "image/png", none⟩, ⟨"F2", some "image/jpeg", some "https://dl2"⟩]⟩

/-- Environment with successful posts and a scripted chat reply. -/
def envC2 : HandlerEnv :=
  ⟨fun _ => .posted, .throws "never fetched", fun _ => .failure "never called",
   .throws "never called", .response true 200 ⟨none, some "sunny", none⟩⟩

/-- An ignored event (bot origin), used by the C2 witness. -/
def eventC2W : MessageEvent :=
  ⟨"C2", some "U1", "111", none, some "<@U9> hi", none, some "B1", none⟩

/-- A 3600-character OCR provider error message. -/
def longErrMsg : String :=
  ⟨List.replicate 3600 'a'⟩

/-- Event with an image attachment, used by the C3 counterexample. -/
def eventC3 : MessageEvent :=
  ⟨"C3", some "U1", "111", none, none, none, none,
   some [⟨"F1", some "image/png", some "https://dl"⟩]⟩

/-- Environment where the download succeeds and OCR fails non-retryably with
a 3600-character message. -/
def envC3 : HandlerEnv :=
  ⟨fun _ => .posted, .response true 200 "b64", fun _ => .failure longErrMsg,
   .throws "never called", .throws "never called"⟩

/-- The error text the C3 counterexample run delivers. -/
def deliveredErrC3 : String :=
  "❌ Error: " ++ ("OCR Failed: " ++ longErrMsg)

/-- OCR oracle that fails with `ETIMEDOUT` on attempts 1-3 and succeeds on
attempt 4, used by the C5 witness. -/
def ocrOracleC5 : Nat → OcrAttemptOutcome :=
  fun n => if n ≤ 3 then .failure "ETIMEDOUT" else .success ⟨some [⟨some "hi"⟩]⟩

/-- Post oracle whose first call is rejected with `cannot_reply_to_message`
and whose later calls succeed, used by the C6 witness. -/
def postOracleC6 : Nat → PostResult :=
  fun n => if n = 0 then .failed "cannot_reply_to_message" else .posted

/-- Provider response whose detections are all absent or whitespace-only,
used by the C8 witness. -/
def respC8 : OcrResponse :=
  ⟨some [⟨some "  "⟩, ⟨none⟩, ⟨some ""⟩]⟩

/-- Mention-chat event of end-to-end scenario B, used by the C9 witness. -/
def eventC9 : MessageEvent :=
  ⟨"C9", some "U1", "111", none, some "<@U123> what\x27s the weather", none, none, none⟩

/-- Environment with successful posts and a scripted chat reply, used by the
C9 witness. -/
def envC9 : HandlerEnv :=
  ⟨fun _ => .posted, .throws "never fetched", fun _ => .failure "never called",
   .throws "never called", .response true 200 ⟨none, some "sunny today", none⟩⟩

/-- Event with an image attachment, used by the C10 witness. -/
def eventC10 : MessageEvent :=
  ⟨"C10", some "U1", "111", none, none, none, none,
   some [⟨"F1", some "image/png", some "https://dl"⟩]⟩

/-- Environment where the download succeeds and OCR succeeds with a single
whitespace-only detection, used by the C10 witness. -/
def envC10 : HandlerEnv :=
  ⟨fun _ => .posted, .response true 200 "b64", fun _ => .success ⟨some [⟨some "  "⟩]⟩,
   .throws "never called", .throws "never called"⟩

/- ------------------------------------------------------------------ -/
/- Helper lemmas                                                       -/
/- ------------------------------------------------------------------ -/

theorem postThreadOrChannel_posted (post : Nat → PostResult) (n : Nat) (args : PostArgs)
    (h : post n = .posted) : postThreadOrChannel post n args = ⟨.ok (), n + 1, [args]⟩ := by
  simp [postThreadOrChannel, h]

theorem postThreadOrChannel_calls_cons (post : Nat → PostResult) (n : Nat) (args : PostArgs) :
    ∃ rest, (postThreadOrChannel post n args).calls = args :: rest := by
  unfold postThreadOrChannel
  cases post n with
  | posted => exact ⟨[], rfl⟩
  | failed e =>
    by_cases h : (e == "cannot_reply_to_message" && optTruthy args.thread_ts) = true
    · simp only [h, if_true]
      cases post (n + 1) <;> exact ⟨[⟨args.channel, none, args.text⟩], rfl⟩
    · simp only [h, if_false, Bool.not_eq_true] at *
      simp [h]

theorem ignoredEvent_false_elim (e : MessageEvent) (h : ignoredEvent e = false) :
    optTruthy e.subtype = false ∧ optTruthy e.user = true ∧ optTruthy e.bot_id = false := by
  unfold ignoredEvent at h
  cases h1 : optTruthy e.subtype <;> cases h2 : optTruthy e.user <;>
    cases h3 : optTruthy e.bot_id <;> simp_all

theorem handleMessage_ignored (env : HandlerEnv) (e : MessageEvent)
    (h : ignoredEvent e = true) : handleMessage env e = emptyResult := by
  unfold handleMessage
  cases h1 : optTruthy e.subtype <;> cases h2 : optTruthy e.user <;>
    cases h3 : optTruthy e.bot_id <;> simp_all [ignoredEvent]

theorem handleMessage_image (env : HandlerEnv) (e : MessageEvent) (f : SlackFile) (u : String)
    (h : ignoredEvent e = false) (hf : firstImageFile e = some f)
    (hu : f.url_private_download = some u) (hne : u ≠ "") :
    handleMessage env e = imagePipeline env e (threadTarget e) u := by
  obtain ⟨h1, h2, h3⟩ := ignoredEvent_false_elim e h
  unfold handleMessage
  simp [h1, h2, h3, hf, hu, hne]

theorem handleMessage_mention (env : HandlerEnv) (e : MessageEvent)
    (h : ignoredEvent e = false) (hr : imageRoute e = false) :
    handleMessage env e = mentionBranch env e (threadTarget e) := by
  obtain ⟨h1, h2, h3⟩ := ignoredEvent_false_elim e h
  unfold handleMessage
  unfold imageRoute at hr
  cases hf : firstImageFile e with
  | none => simp [h1, h2, h3, hf]
  | some f =>
    rw [hf] at hr
    simp only at hr
    cases hu : f.url_private_download with
    | none => simp [h1, h2, h3, hf, hu]
    | some u =>
      rw [hu] at hr
      simp only [optTruthy] at hr
      simp [h1, h2, h3, hf, hu, hr]

theorem imagePipeline_posts_head (env : HandlerEnv) (e : MessageEvent) (threadTs url : String) :
    (imagePipeline env e threadTs url).posts.head? =
      some ⟨e.channel, some threadTs, "🔍 Processing your image with OCR..."⟩ := by
  obtain ⟨r1, h1⟩ := postThreadOrChannel_calls_cons env.post 0
    ⟨e.channel, some threadTs, "🔍 Processing your image with OCR..."⟩
  simp only [imagePipeline, catchPost]
  repeat' split
  all_goals simp [h1]

theorem imagePipeline_chatTexts (env : HandlerEnv) (e : MessageEvent) (threadTs url : String) :
    (imagePipeline env e threadTs url).chatTexts = [] := by
  simp only [imagePipeline, catchPost]
  repeat' split
  all_goals simp

theorem imagePipeline_outcome_ok (env : HandlerEnv) (e : MessageEvent) (threadTs url : String)
    (hp : ∀ k, env.post k = .posted) :
    (imagePipeline env e threadTs url).outcome = .ok () := by
  have hpt : ∀ n a, postThreadOrChannel env.post n a = ⟨.ok (), n + 1, [a]⟩ :=
    fun n a => postThreadOrChannel_posted env.post n a (hp n)
  simp only [imagePipeline, catchPost, hpt]
  repeat' split
  all_goals simp_all [hpt]

theorem mentionBranch_outcome_ok (env : HandlerEnv) (e : MessageEvent) (threadTs : String)
    (hp : ∀ k, env.post k = .posted) :
    (mentionBranch env e threadTs).outcome = .ok () := by
  have hpt : ∀ n a, postThreadOrChannel env.post n a = ⟨.ok (), n + 1, [a]⟩ :=
    fun n a => postThreadOrChannel_posted env.post n a (hp n)
  simp only [mentionBranch, catchPost, hpt]
  repeat' split
  all_goals simp_all [hpt, emptyResult]

theorem mentionBranch_noop (env : HandlerEnv) (e : MessageEvent) (threadTs : String)
    (h : mentionCond e = false) : mentionBranch env e threadTs = emptyResult := by
  unfold mentionCond at h
  unfold mentionBranch
  cases ht : e.text with
  | none => rfl
  | some t =>
    rw [ht] at h
    simp only at h
    simp [h]

theorem mentionBranch_downloadCalls (env : HandlerEnv) (e : MessageEvent) (threadTs : String) :
    (mentionBranch env e threadTs).downloadCalls = 0 := by
  simp only [mentionBranch, catchPost]
  repeat' split
  all_goals simp [emptyResult]

theorem mentionBranch_head (env : HandlerEnv) (e : MessageEvent) (threadTs t : String)
    (ht : e.text = some t) (hin : includesSubstr t "<@" = true)
    (hcl : cleanedTextOf t ≠ "") :
    (mentionBranch env e threadTs).posts.head? =
      some ⟨e.channel, some threadTs, "🤖 Thinking..."⟩ := by
  obtain ⟨r1, h1⟩ := postThreadOrChannel_calls_cons env.post 0
    ⟨e.channel, some threadTs, "🤖 Thinking..."⟩
  simp only [mentionBranch, catchPost, ht, hin, if_true]
  repeat' split
  all_goals simp_all [h1]

theorem mentionBranch_chatTexts (env : HandlerEnv) (e : MessageEvent) (threadTs t : String)
    (ht : e.text = some t) (hin : includesSubstr t "<@" = true)
    (hcl : cleanedTextOf t ≠ "") (hp0 : env.post 0 = .posted) :
    (mentionBranch env e threadTs).chatTexts = [cleanedTextOf t] := by
  simp only [mentionBranch, catchPost, ht, hin, if_true,
    postThreadOrChannel_posted env.post 0 _ hp0]
  repeat' split
  all_goals simp_all

theorem ocrGo_succ (f : Nat → OcrAttemptOutcome) (attempt fuel : Nat) :
    ocrGo f attempt (fuel + 1) =
      match f attempt with
      | .success resp => ⟨.ok (ocrJoin resp), 1, []⟩
      | .failure m =>
        if attempt < maxAttempts && isRetryableNetworkError m then
          ⟨(ocrGo f (attempt + 1) fuel).result, (ocrGo f (attempt + 1) fuel).attemptsMade + 1,
            300 * 2 ^ (attempt - 1) :: (ocrGo f (attempt + 1) fuel).sleeps⟩
        else ⟨.error ("OCR Failed: " ++ m), 1, []⟩ := rfl

theorem ocrGo_attempts_le (f : Nat → OcrAttemptOutcome) (attempt fuel : Nat) :
    (ocrGo f attempt fuel).attemptsMade ≤ fuel := by
  induction fuel generalizing attempt with
  | zero => simp [ocrGo]
  | succ n ih =>
    rw [ocrGo_succ]
    split
    · simp
    · split
      · exact Nat.succ_le_succ (ih (attempt + 1))
      · simp

theorem ocr_filter_cond (s : String) :
    (s != "" && decide ((strTrim s).length > 0)) = (strTrim s != "") := by
  by_cases h : strTrim s = ""
  · simp [h]
  · have hne : s ≠ "" := by
      intro he
      exact h (by rw [he]; decide)
    have hl : 0 < (strTrim s).length := by
      rcases hst : (strTrim s).data with _ | ⟨c, l⟩
      · exact absurd (String.ext hst) h
      · simp [String.length, hst]
    have h1 : (s != "") = true := by simpa [bne_iff_ne] using hne
    have h2 : (strTrim s != "") = true := by simpa [bne_iff_ne] using h
    simp [h1, h2, hl]

theorem ocrJoin_eq_specJoinDetections (resp : OcrResponse) :
    ocrJoin resp = specJoinDetections resp := by
  unfold ocrJoin specJoinDetections
  congr 1
  generalize resp.TextDetections.getD [] = dets
  induction dets with
  | nil => rfl
  | cons d tl ih =>
    simp only [List.map_cons, List.filterMap_cons]
    cases hd : d.DetectedText with
    | none => exact ih
    | some s =>
      by_cases h : strTrim s = ""
      · have h2 : (strTrim s != "") = false := by simp [h]
        have h3 : (s != "" && decide ((strTrim s).length > 0)) = false := by
          rw [ocr_filter_cond]; exact h2
        simp only [h3, Bool.false_eq_true, if_false, List.filter_cons, h2]
        exact ih
      · have h2 : (strTrim s != "") = true := by simpa [bne_iff_ne] using h
        have h3 : (s != "" && decide ((strTrim s).length > 0)) = true := by
          rw [ocr_filter_cond]; exact h2
        simp only [h3, if_true, List.filter_cons, h2]
        rw [ih]

theorem containsList_replicate_false (c p : Char) (ps : List Char) (h : p ≠ c) :
    ∀ n, containsList (List.replicate n c) (p :: ps) = false := by
  intro n
  induction n with
  | zero => rfl
  | succ k ih =>
    rw [List.replicate_succ]
    simp only [containsList, startsWithList]
    have hb : (p == c) = false := beq_eq_false_iff_ne.mpr h
    simp [hb, ih]

theorem isRetryableNetworkError_longErrMsg :
    isRetryableNetworkError longErrMsg = false := by
  have gen : ∀ (p : Char) (ps : List Char), p ≠ 'a' →
      containsList (List.replicate 3600 'a') (p :: ps) = false :=
    fun p ps h => containsList_replicate_false 'a' p ps h 3600
  show (containsList (List.replicate 3600 'a') ('E' :: "AI_AGAIN".data) ||
        containsList (List.replicate 3600 'a') ('E' :: "NOTFOUND".data) ||
        containsList (List.replicate 3600 'a') ('E' :: "TIMEDOUT".data) ||
        containsList (List.replicate 3600 'a') ('E' :: "CONNRESET".data) ||
        containsList (List.replicate 3600 'a') ('s' :: "ocket hang up".data)) = false
  rw [gen 'E' _ (by decide), gen 'E' _ (by decide), gen 'E' _ (by decide),
      gen 'E' _ (by decide), gen 's' _ (by decide)]
  rfl

theorem ocrRunC3 : callTencentOCRWithSDK envC3.ocrAttempt =
    ⟨.error ("OCR Failed: " ++ longErrMsg), 1, []⟩ := by
  have e0 : callTencentOCRWithSDK envC3.ocrAttempt = ocrGo envC3.ocrAttempt 1 (3 + 1) := rfl
  rw [e0, ocrGo_succ]
  rw [show envC3.ocrAttempt 1 = .failure longErrMsg from rfl]
  simp [isRetryableNetworkError_longErrMsg]

theorem handleMessage_ocr_error_posts (env : HandlerEnv) (e : MessageEvent)
    (f : SlackFile) (u b64 m : String)
    (h1 : ignoredEvent e = false) (h2 : firstImageFile e = some f)
    (h3 : f.url_private_download = some u) (h4 : u ≠ "")
    (hp : ∀ k, env.post k = .posted)
    (hd : fetchSlackFileAsBase64 u env.download = .ok b64)
    (hocr : (callTencentOCRWithSDK env.ocrAttempt).result = .error m) :
    (handleMessage env e).posts =
      [⟨e.channel, some (threadTarget e), "🔍 Processing your image with OCR..."⟩,
       ⟨e.channel, some (threadTarget e), "❌ Error: " ++ m⟩] := by
  have hpt : ∀ n a, postThreadOrChannel env.post n a = ⟨.ok (), n + 1, [a]⟩ :=
    fun n a => postThreadOrChannel_posted env.post n a (hp n)
  rw [handleMessage_image env e f u h1 h2 h3 h4]
  unfold imagePipeline
  rcases hrun : callTencentOCRWithSDK env.ocrAttempt with ⟨rres, ratt, rsl⟩
  rw [hrun] at hocr
  simp only at hocr
  subst hocr
  simp [hpt, hd, catchPost]

/- ------------------------------------------------------------------ -/
/- Claim theorems                                                      -/
/- ------------------------------------------------------------------ -/

/-- Claim C4: The OCR retry loop retries only errors classified as transient
network failures (the code's signature set is contained in the spec's
refused/reset, DNS-failure, timeout, socket-hang-up class), and for every
error outside that class exactly one attempt occurs, no backoff sleep
happens, and the error propagates immediately wrapped as `OCR Failed`. -/
theorem claim4_retry_only_transient (f : Nat → OcrAttemptOutcome) (m : String) :
    (isRetryableNetworkError m = true → specTransientNetworkError m = true) ∧
    (f 1 = .failure m → specTransientNetworkError m = false →
      callTencentOCRWithSDK f = ⟨.error ("OCR Failed: " ++ m), 1, []⟩) := by
  have hsub : isRetryableNetworkError m = true → specTransientNetworkError m = true := by
    intro h
    unfold isRetryableNetworkError at h
    unfold specTransientNetworkError
    simp only [Bool.or_eq_true] at h ⊢
    tauto
  refine ⟨hsub, fun hf hs => ?_⟩
  have hr : isRetryableNetworkError m = false := by
    cases hh : isRetryableNetworkError m with
    | false => rfl
    | true => rw [hsub hh] at hs; cases hs
  have e0 : callTencentOCRWithSDK f = ocrGo f 1 (3 + 1) := rfl
  rw [e0, ocrGo_succ, hf]
  simp [hr]

/-- Witness for C4 at a concrete non-retryable error. -/
theorem claim4_retry_only_transient_witness :
    specTransientNetworkError "quota exceeded" = false ∧
    callTencentOCRWithSDK (fun _ => .failure "quota exceeded") =
      ⟨.error "OCR Failed: quota exceeded", 1, []⟩ :=
  ⟨by decide,
   (claim4_retry_only_transient (fun _ => .failure "quota exceeded") "quota exceeded").2
     rfl (by decide)⟩

/-- Claim C5: The OCR retry executor attempts at most 4 times; an operation
failing retryably on attempts 1-3 is retried with backoffs 300, 600, 1200 ms
and attempt 4's success value is returned; if attempt 4 also fails, the last
error is re-raised wrapped with the `OCR Failed` marker. -/
theorem claim5_retry_executor (f : Nat → OcrAttemptOutcome) (m1 m2 m3 m4 : String)
    (resp : OcrResponse) :
    (callTencentOCRWithSDK f).attemptsMade ≤ 4 ∧
    (f 1 = .failure m1 → f 2 = .failure m2 → f 3 = .failure m3 →
     isRetryableNetworkError m1 = true → isRetryableNetworkError m2 = true →
     isRetryableNetworkError m3 = true →
     (f 4 = .success resp →
        callTencentOCRWithSDK f = ⟨.ok (ocrJoin resp), 4, [300, 600, 1200]⟩) ∧
     (f 4 = .failure m4 →
        callTencentOCRWithSDK f = ⟨.error ("OCR Failed: " ++ m4), 4, [300, 600, 1200]⟩)) := by
  refine ⟨ocrGo_attempts_le f 1 4, fun h1 h2 h3 r1 r2 r3 => ?_⟩
  have e1 : ocrGo f 1 4 = ⟨(ocrGo f 2 3).result, (ocrGo f 2 3).attemptsMade + 1,
      300 :: (ocrGo f 2 3).sleeps⟩ := by
    rw [show (4 : Nat) = 3 + 1 from rfl, ocrGo_succ, h1]
    norm_num [r1, maxAttempts]
  have e2 : ocrGo f 2 3 = ⟨(ocrGo f 3 2).result, (ocrGo f 3 2).attemptsMade + 1,
      600 :: (ocrGo f 3 2).sleeps⟩ := by
    rw [show (3 : Nat) = 2 + 1 from rfl, ocrGo_succ, h2]
    norm_num [r2, maxAttempts]
  have e3 : ocrGo f 3 2 = ⟨(ocrGo f 4 1).result, (ocrGo f 4 1).attemptsMade + 1,
      1200 :: (ocrGo f 4 1).sleeps⟩ := by
    rw [show (2 : Nat) = 1 + 1 from rfl, ocrGo_succ, h3]
    norm_num [r3, maxAttempts]
  have e0 : callTencentOCRWithSDK f = ocrGo f 1 4 := rfl
  constructor
  · intro h4
    have e4 : ocrGo f 4 1 = ⟨.ok (ocrJoin resp), 1, []⟩ := by
      rw [show (1 : Nat) = 0 + 1 from rfl, ocrGo_succ, h4]
    rw [e0, e1, e2, e3, e4]
  · intro h4
    have e4 : ocrGo f 4 1 = ⟨.error ("OCR Failed: " ++ m4), 1, []⟩ := by
      rw [show (1 : Nat) = 0 + 1 from rfl, ocrGo_succ, h4]
      norm_num [maxAttempts]
    rw [e0, e1, e2, e3, e4]

/-- Witness for C5: three `ETIMEDOUT` failures then success. -/
theorem claim5_retry_executor_witness :
    callTencentOCRWithSDK ocrOracleC5 = ⟨.ok "hi", 4, [300, 600, 1200]⟩ :=
  ((claim5_retry_executor ocrOracleC5 "ETIMEDOUT" "ETIMEDOUT" "ETIMEDOUT" "x"
      ⟨some [⟨some "hi"⟩]⟩).2
    rfl rfl rfl (by decide) (by decide) (by decide)).1 rfl

/-- Claim C6: A thread post rejected exactly with `cannot_reply_to_message`
triggers exactly one fallback channel-level post with the same text and no
thread reference; any other delivery error propagates unmodified with no
fallback attempt. -/
theorem claim6_delivery_thread_fallback (post : Nat → PostResult) (n : Nat)
    (args : PostArgs) (err : String) :
    (post n = .failed "cannot_reply_to_message" → optTruthy args.thread_ts = true →
      (postThreadOrChannel post n args).calls = [args, ⟨args.channel, none, args.text⟩] ∧
      (post (n + 1) = .posted → (postThreadOrChannel post n args).result = .ok ())) ∧
    (post n = .failed err → err ≠ "cannot_reply_to_message" →
      postThreadOrChannel post n args = ⟨.error err, n + 1, [args]⟩) := by
  constructor
  · intro h ht
    unfold postThreadOrChannel
    rw [h]
    simp only [beq_self_eq_true, ht, Bool.and_self, if_true]
    constructor
    · cases post (n + 1) <;> rfl
    · intro hp
      rw [hp]
  · intro h hne
    unfold postThreadOrChannel
    rw [h]
    have hb : (err == "cannot_reply_to_message") = false := by
      simpa [beq_eq_false_iff_ne] using hne
    simp [hb]

/-- Witness for C6: a rejected thread post followed by a successful fallback. -/
theorem claim6_delivery_thread_fallback_witness :
    (postThreadOrChannel postOracleC6 0 ⟨"C6", some "111", "hello"⟩).calls =
      [⟨"C6", some "111", "hello"⟩, ⟨"C6", none, "hello"⟩] ∧
    (postThreadOrChannel postOracleC6 0 ⟨"C6", some "111", "hello"⟩).result = .ok () := by
  have h := (claim6_delivery_thread_fallback postOracleC6 0 ⟨"C6", some "111", "hello"⟩ "x").1
    rfl rfl
  exact ⟨h.1, h.2 rfl⟩

/-- Claim C7: Both language-model operations are total on every provider
outcome and fall back gracefully: a transport exception, a non-success
status, or a provider-reported error payload makes analyze return the
original OCR text prefixed with a failure notice and chat return the fixed
apology string; no exception reaches the caller. -/
theorem claim7_llm_failures_fallback (ocrText userText m : String) (ok : Bool)
    (status : Nat) (data : LlmData) :
    (callLLMToAnalyze ocrText (.throws m) =
      ⟨"⚠️ AI Analysis Failed. Raw Text:\n" ++ ocrText, none⟩) ∧
    (callLLMToChat userText (.throws m) = "⚠️ AI reply failed. Please try again.") ∧
    (ok = false ∨ data.error.isSome = true →
      callLLMToAnalyze ocrText (.response ok status data) =
        ⟨"⚠️ AI Analysis Failed. Raw Text:\n" ++ ocrText, none⟩ ∧
      callLLMToChat userText (.response ok status data) =
        "⚠️ AI reply failed. Please try again.") := by
  refine ⟨rfl, rfl, fun h => ?_⟩
  have hc : (!ok || data.error.isSome) = true := by
    rcases h with h | h <;> simp [h]
  constructor
  · simp [callLLMToAnalyze, callLLMToAnalyzeTry, hc]
  · simp [callLLMToChat, callLLMToChatTry, hc]

/-- Witness for C7 at a transport exception and an error payload. -/
theorem claim7_llm_failures_fallback_witness :
    callLLMToAnalyze "RAW" (.throws "ECONNRESET") =
      ⟨"⚠️ AI Analysis Failed. Raw Text:\nRAW", none⟩ ∧
    callLLMToChat "hi" (.response false 500 ⟨none, none, none⟩) =
      "⚠️ AI reply failed. Please try again." :=
  ⟨(claim7_llm_failures_fallback "RAW" "hi" "ECONNRESET" false 500 ⟨none, none, none⟩).1,
   ((claim7_llm_failures_fallback "RAW" "hi" "ECONNRESET" false 500 ⟨none, none, none⟩).2.2
      (Or.inl rfl)).2⟩

/-- Claim C8: A successful first OCR attempt returns the provider's detections
with empty and whitespace-only entries discarded, joined by newlines in
provider order (the spec-side transcription `specJoinDetections`); a missing
detection list or all-whitespace detections yield the empty string as a
non-error result. -/
theorem claim8_ocr_join_normalization (f : Nat → OcrAttemptOutcome) (resp : OcrResponse) :
    (f 1 = .success resp →
      callTencentOCRWithSDK f = ⟨.ok (specJoinDetections resp), 1, []⟩) ∧
    (resp.TextDetections = none → specJoinDetections resp = "") ∧
    ((resp.TextDetections.getD []).all
        (fun d => strTrim (d.DetectedText.getD "") == "") = true →
      specJoinDetections resp = "") := by
  refine ⟨fun h1 => ?_, fun hn => ?_, fun hw => ?_⟩
  · have e0 : callTencentOCRWithSDK f = ocrGo f 1 (3 + 1) := rfl
    rw [e0, ocrGo_succ, h1]
    simp [ocrJoin_eq_specJoinDetections]
  · rw [specJoinDetections, hn]
    rfl
  · unfold specJoinDetections
    have hfilter : ∀ l : List OcrDetection,
        (∀ d ∈ l, strTrim (d.DetectedText.getD "") = "") →
        (l.filterMap (fun d => d.DetectedText)).filter (fun s => strTrim s != "") = [] := by
      intro l
      induction l with
      | nil => intro _; rfl
      | cons d tl ih =>
        intro hl
        rw [List.filterMap_cons]
        cases hd : d.DetectedText with
        | none => exact ih (fun x hx => hl x (by simp [hx]))
        | some s =>
          have hs : strTrim s = "" := by
            have := hl d (by simp)
            rwa [hd, Option.getD_some] at this
          have h2 : (strTrim s != "") = false := by simp [hs]
          rw [List.filter_cons, h2]
          simp only [Bool.false_eq_true, if_false]
          exact ih (fun x hx => hl x (by simp [hx]))
    rw [hfilter (resp.TextDetections.getD [])
      (fun d hd => by simpa using List.all_eq_true.mp hw d hd)]
    rfl

/-- Witness for C8: a response whose detections are whitespace-only, absent,
or empty yields the empty string. -/
theorem claim8_ocr_join_normalization_witness :
    callTencentOCRWithSDK (fun _ => .success respC8) =
      ⟨.ok (specJoinDetections respC8), 1, []⟩ ∧
    specJoinDetections respC8 = "" :=
  ⟨(claim8_ocr_join_normalization (fun _ => .success respC8) respC8).1 rfl, by decide⟩

/-- Claim C1 (amended): Exceptions raised inside the handler's guarded section
(attachment fetch, OCR, result posts; the language-model client is total) are
caught and converted into a single error post on the same channel/thread
target, and if every delivery call succeeds the handler never throws; but a
delivery failure outside the guarded section (here shown for the fetch-error
scenario via the always-posted hypothesis) is the one exception source the
handler does not convert. -/
theorem claim1_router_error_conversion (env : HandlerEnv) (e : MessageEvent) :
    ((∀ k, env.post k = .posted) → (handleMessage env e).outcome = .ok ()) ∧
    (∀ f u m, ignoredEvent e = false → firstImageFile e = some f →
      f.url_private_download = some u → u ≠ "" →
      (∀ k, env.post k = .posted) →
      fetchSlackFileAsBase64 u env.download = .error m →
      handleMessage env e =
        ⟨.ok (), [⟨e.channel, some (threadTarget e), "🔍 Processing your image with OCR..."⟩,
                  ⟨e.channel, some (threadTarget e), "❌ Error: " ++ m⟩],
         1, 0, 0, [], []⟩) := by
  constructor
  · intro hp
    by_cases hi : ignoredEvent e = true
    · rw [handleMessage_ignored env e hi]; rfl
    · have hif : ignoredEvent e = false := by simpa using hi
      by_cases hir : imageRoute e = true
      · unfold imageRoute at hir
        rcases hf : firstImageFile e with _ | f
        · rw [hf] at hir; cases hir
        · rw [hf] at hir
          simp only at hir
          rcases hu : f.url_private_download with _ | u
          · rw [hu] at hir; cases hir
          · rw [hu] at hir
            simp only [optTruthy] at hir
            have hne : u ≠ "" := by simpa [bne_iff_ne] using hir
            rw [handleMessage_image env e f u hif hf hu hne]
            exact imagePipeline_outcome_ok env e (threadTarget e) u hp
      · have hirf : imageRoute e = false := by simpa using hir
        rw [handleMessage_mention env e hif hirf]
        exact mentionBranch_outcome_ok env e (threadTarget e) hp
  · intro f u m h1 h2 h3 h4 hp hd
    rw [handleMessage_image env e f u h1 h2 h3 h4]
    unfold imagePipeline
    rw [postThreadOrChannel_posted env.post 0 _ (hp 0)]
    simp only
    rw [hd]
    simp [catchPost, postThreadOrChannel_posted env.post 1 _ (hp 1)]

/-- Witness for the amended C1: an attachment-download failure is converted
into an error post and the handler returns normally. -/
theorem claim1_router_error_conversion_witness :
    handleMessage envC1W eventC1W =
      ⟨.ok (), [⟨"C1", some "111", "🔍 Processing your image with OCR..."⟩,
                ⟨"C1", some "111", "❌ Error: Failed to download file: 403"⟩],
       1, 0, 0, [], []⟩ :=
  (claim1_router_error_conversion envC1W eventC1W).2
    ⟨"F1", some "image/png", some "https://dl"⟩ "https://dl" "Failed to download file: 403"
    rfl rfl rfl (by decide) (fun _ => rfl) rfl

/-- Counterexample to C1 as stated: when the acknowledgment post (which
precedes the `try` block) fails with a delivery error other than
`cannot_reply_to_message`, the handler re-raises it to the platform instead
of converting it into a user-facing message. -/
theorem claim1_router_rethrows_counterexample :
    (handleMessage envC1 eventC1).outcome = .error "channel_not_found" := rfl

/-- Claim C2 (amended): Classification precedence: ignored events produce no
downstream calls; the image pipeline is chosen exactly when the *first*
image-MIME attachment exposes a downloadable URL (regardless of any mention
marker); otherwise the mention-chat check applies; otherwise the event is a
no-op. -/
theorem claim2_classification_precedence (env : HandlerEnv) (e : MessageEvent) :
    (ignoredEvent e = true → handleMessage env e = emptyResult) ∧
    (ignoredEvent e = false → imageRoute e = true →
      (handleMessage env e).posts.head? =
        some ⟨e.channel, some (threadTarget e), "🔍 Processing your image with OCR..."⟩ ∧
      (handleMessage env e).chatTexts = []) ∧
    (ignoredEvent e = false → imageRoute e = false →
      ∀ t, e.text = some t → includesSubstr t "<@" = true → cleanedTextOf t ≠ "" →
      (handleMessage env e).posts.head? =
        some ⟨e.channel, some (threadTarget e), "🤖 Thinking..."⟩ ∧
      (handleMessage env e).downloadCalls = 0) ∧
    (ignoredEvent e = false → imageRoute e = false → mentionCond e = false →
      handleMessage env e = emptyResult) := by
  refine ⟨fun h => handleMessage_ignored env e h, fun hif hir => ?_, fun hif hir => ?_,
    fun hif hir hm => ?_⟩
  · unfold imageRoute at hir
    rcases hf : firstImageFile e with _ | f
    · rw [hf] at hir; cases hir
    · rw [hf] at hir
      simp only at hir
      rcases hu : f.url_private_download with _ | u
      · rw [hu] at hir; cases hir
      · rw [hu] at hir
        simp only [optTruthy] at hir
        have hne : u ≠ "" := by simpa [bne_iff_ne] using hir
        rw [handleMessage_image env e f u hif hf hu hne]
        exact ⟨imagePipeline_posts_head env e (threadTarget e) u,
               imagePipeline_chatTexts env e (threadTarget e) u⟩
  · intro t ht hin hcl
    rw [handleMessage_mention env e hif hir]
    exact ⟨mentionBranch_head env e (threadTarget e) t ht hin hcl,
           mentionBranch_downloadCalls env e (threadTarget e)⟩
  · rw [handleMessage_mention env e hif hir]
    exact mentionBranch_noop env e (threadTarget e) hm

/-- Witness for the amended C2 at a concrete ignored (bot-origin) event. -/
theorem claim2_classification_precedence_witness :
    handleMessage envC2 eventC2W = emptyResult :=
  (claim2_classification_precedence envC2 eventC2W).1 rfl

/-- Counterexample to C2 as stated: `eventC2` has an attachment (`F2`) with
image MIME type and a download URL, yet the handler takes the mention-chat
pipeline (no download, chat invoked) because the *first* image-MIME
attachment (`F1`) lacks a URL. -/
theorem claim2_first_image_file_counterexample :
    isImageMimeFile ⟨"F2", some "image/jpeg", some "https://dl2"⟩ = true ∧
    optTruthy (some "https://dl2") = true ∧
    eventC2.files = some [⟨"F1", some "image/png", none⟩,
                          ⟨"F2", some "image/jpeg", some "https://dl2"⟩] ∧
    (handleMessage envC2 eventC2).downloadCalls = 0 ∧
    (handleMessage envC2 eventC2).chatTexts = ["hi"] ∧
    (handleMessage envC2 eventC2).posts.head? = some ⟨"C2", some "111", "🤖 Thinking..."⟩ :=
  ⟨rfl, rfl, rfl, rfl, rfl, rfl⟩

/-- Claim C3 (amended): Language-model result texts are truncated before
delivery: above 3500 characters the delivered text is the first 3500
characters plus the literal `...(truncated)` marker (total length at most
3514); at 3500 or fewer it is delivered unmodified; and in the image success
path the delivered result text is exactly the truncation of the analyze
output.  (Error messages posted by the catch blocks are *not* truncated.) -/
theorem claim3_truncation (s : String) (env : HandlerEnv) (e : MessageEvent) :
    (3500 < s.length → truncateMsg s = strTake s 3500 ++ "...(truncated)") ∧
    (s.length ≤ 3500 → truncateMsg s = s) ∧
    (truncateMsg s).length ≤ 3514 ∧
    (∀ f u b64 ocrText, ignoredEvent e = false → firstImageFile e = some f →
      f.url_private_download = some u → u ≠ "" →
      (∀ k, env.post k = .posted) →
      fetchSlackFileAsBase64 u env.download = .ok b64 →
      (callTencentOCRWithSDK env.ocrAttempt).result = .ok ocrText → ocrText ≠ "" →
      (handleMessage env e).posts =
        [⟨e.channel, some (threadTarget e), "🔍 Processing your image with OCR..."⟩,
         ⟨e.channel, some (threadTarget e),
          truncateMsg (callLLMToAnalyze ocrText env.llmAnalyze).text⟩]) := by
  have htake : 3500 < s.length → (strTake s 3500).length = 3500 := by
    intro h
    have : (strTake s 3500).length = (s.data.take 3500).length := rfl
    rw [this, List.length_take]
    have hs : s.length = s.data.length := rfl
    omega
  refine ⟨fun h => by rw [truncateMsg, if_pos h], fun h => by rw [truncateMsg, if_neg (by omega)],
    ?_, ?_⟩
  · by_cases h : 3500 < s.length
    · rw [truncateMsg, if_pos h, String.length_append, htake h]
      decide
    · rw [truncateMsg, if_neg h]
      omega
  · intro f u b64 ocrText h1 h2 h3 h4 hp hd hocr hne
    have hpt : ∀ n a, postThreadOrChannel env.post n a = ⟨.ok (), n + 1, [a]⟩ :=
      fun n a => postThreadOrChannel_posted env.post n a (hp n)
    rw [handleMessage_image env e f u h1 h2 h3 h4]
    unfold imagePipeline
    rcases hrun : callTencentOCRWithSDK env.ocrAttempt with ⟨rres, ratt, rsl⟩
    rw [hrun] at hocr
    simp only at hocr
    subst hocr
    simp [hpt, hd, hne]

/-- Witness for the amended C3 exercising the truncating branch. -/
theorem claim3_truncation_witness :
    truncateMsg (String.mk (List.replicate 3501 'a')) =
      strTake (String.mk (List.replicate 3501 'a')) 3500 ++ "...(truncated)" ∧
    (truncateMsg (String.mk (List.replicate 3501 'a'))).length ≤ 3514 :=
  ⟨(claim3_truncation (String.mk (List.replicate 3501 'a')) envC3 eventC3).1
      (by rw [String.length_mk, List.length_replicate]; omega),
   (claim3_truncation (String.mk (List.replicate 3501 'a')) envC3 eventC3).2.2.1⟩

/-- Counterexample to C3 as stated: the catch-block error post delivers a
text longer than 3500 characters that is not of the truncated form — over-
long error messages are delivered unmodified. -/
theorem claim3_untruncated_error_counterexample :
    (handleMessage envC3 eventC3).posts =
      [⟨"C3", some "111", "🔍 Processing your image with OCR..."⟩,
       ⟨"C3", some "111", deliveredErrC3⟩] ∧
    3500 < deliveredErrC3.length ∧
    deliveredErrC3 ≠ strTake deliveredErrC3 3500 ++ "...(truncated)" := by
  have hlen : deliveredErrC3.length = 3621 := by
    simp only [deliveredErrC3, longErrMsg, String.length_append, String.length_mk,
      List.length_replicate]
    decide
  refine ⟨?_, by omega, fun h => ?_⟩
  · exact handleMessage_ocr_error_posts envC3 eventC3
      ⟨"F1", some "image/png", some "https://dl"⟩ "https://dl" "b64"
      ("OCR Failed: " ++ longErrMsg)
      rfl rfl rfl (by decide) (fun _ => rfl) rfl (by rw [ocrRunC3])
  · have htk : (strTake deliveredErrC3 3500).length = 3500 := by
      show (deliveredErrC3.data.take 3500).length = 3500
      rw [List.length_take]
      have hd : deliveredErrC3.data.length = 3621 := hlen
      omega
    have h2 : (strTake deliveredErrC3 3500 ++ "...(truncated)").length = 3514 := by
      rw [String.length_append, htk]
      decide
    have h3 := congrArg String.length h
    rw [hlen, h2] at h3
    omega

/-- Claim C9: For events without image attachments whose text contains the
mention marker and whose text, with every `<@...>` marker removed and
whitespace trimmed, is non-empty, the mention-chat pipeline runs and the
language-model chat operation receives exactly that cleaned text. -/
theorem claim9_mention_chat_cleaning (env : HandlerEnv) (e : MessageEvent) (t : String) :
    ignoredEvent e = false → firstImageFile e = none → e.text = some t →
    includesSubstr t "<@" = true → cleanedTextOf t ≠ "" → env.post 0 = .posted →
    (handleMessage env e).chatTexts = [cleanedTextOf t] ∧
    (handleMessage env e).posts.head? =
      some ⟨e.channel, some (threadTarget e), "🤖 Thinking..."⟩ := by
  intro h1 h2 h3 h4 h5 h6
  have hir : imageRoute e = false := by simp [imageRoute, h2]
  rw [handleMessage_mention env e h1 hir]
  exact ⟨mentionBranch_chatTexts env e (threadTarget e) t h3 h4 h5 h6,
         mentionBranch_head env e (threadTarget e) t h3 h4 h5⟩

/-- Witness for C9: scenario B of the spec, `"<@U123> what's the weather"`
reaches chat as `"what's the weather"`. -/
theorem claim9_mention_chat_cleaning_witness :
    (handleMessage envC9 eventC9).chatTexts = ["what\x27s the weather"] ∧
    (handleMessage envC9 eventC9).posts.head? =
      some ⟨"C9", some "111", "🤖 Thinking..."⟩ := by
  have h := claim9_mention_chat_cleaning envC9 eventC9 "<@U123> what\x27s the weather"
    rfl rfl rfl (by decide) (by decide) rfl
  exact ⟨by rw [h.1]; rfl, h.2⟩

/-- Claim C10: In the image pipeline, OCR success with empty joined text posts
the fixed "no text detected" message to the same thread target and never
invokes the language-model analyze operation. -/
theorem claim10_empty_ocr_short_circuit (env : HandlerEnv) (e : MessageEvent)
    (f : SlackFile) (u b64 : String) :
    ignoredEvent e = false → firstImageFile e = some f →
    f.url_private_download = some u → u ≠ "" →
    env.post 0 = .posted → env.post 1 = .posted →
    fetchSlackFileAsBase64 u env.download = .ok b64 →
    (callTencentOCRWithSDK env.ocrAttempt).result = .ok "" →
    handleMessage env e =
      ⟨.ok (), [⟨e.channel, some (threadTarget e), "🔍 Processing your image with OCR..."⟩,
                ⟨e.channel, some (threadTarget e), "❌ No text detected in the image."⟩],
       1, (callTencentOCRWithSDK env.ocrAttempt).attemptsMade, 0, [],
       (callTencentOCRWithSDK env.ocrAttempt).sleeps⟩ := by
  intro h1 h2 h3 h4 hp0 hp1 hd hocr
  have hpt0 := postThreadOrChannel_posted env.post 0
    ⟨e.channel, some (threadTarget e), "🔍 Processing your image with OCR..."⟩ hp0
  have hpt1 := postThreadOrChannel_posted env.post 1
    ⟨e.channel, some (threadTarget e), "❌ No text detected in the image."⟩ hp1
  rw [handleMessage_image env e f u h1 h2 h3 h4]
  unfold imagePipeline
  rcases hrun : callTencentOCRWithSDK env.ocrAttempt with ⟨rres, ratt, rsl⟩
  rw [hrun] at hocr
  simp only at hocr
  subst hocr
  simp [hpt0, hpt1, hd]

/-- Witness for C10: a whitespace-only detection list yields the "no text"
post and no analyze call. -/
theorem claim10_empty_ocr_short_circuit_witness :
    handleMessage envC10 eventC10 =
      ⟨.ok (), [⟨"C10", some "111", "🔍 Processing your image with OCR..."⟩,
                ⟨"C10", some "111", "❌ No text detected in the image."⟩],
       1, 1, 0, [], []⟩ :=
  claim10_empty_ocr_short_circuit envC10 eventC10
    ⟨"F1", some "image/png", some "https://dl"⟩ "https://dl" "b64"
    rfl rfl rfl (by decide) rfl rfl rfl rfl

end SlackApp
